import Mathlib

/-!
Shallow embedding of `src/generators.ts` from `@kra-connect/test-utils`.

Strings are modelled as `List Char`.  JavaScript numbers are modelled
exactly: the seeded RNG state is an integer (the `%` of JavaScript is the
truncated remainder `Int.tmod`), and each use of a draw in the source has
the shape `Math.floor(r * c + b)` with `r = v / 233280`; since
`⌊(v / 233280) * c + b⌋ = v * c / 233280 + b` (integer division by the
positive constant `233280`), the seeded generators are defined with exact
integer arithmetic, and a bridging lemma relates them to the rational-draw
forms used for the unseeded (platform-randomness) generators.
-/

namespace KraConnect

/-- One decimal digit character, as produced by JavaScript number
formatting for a digit value `0`–`9`. -/
def digitChar (d : Nat) : Char :=
  match d with
  | 0 => '0'
  | 1 => '1'
  | 2 => '2'
  | 3 => '3'
  | 4 => '4'
  | 5 => '5'
  | 6 => '6'
  | 7 => '7'
  | 8 => '8'
  | 9 => '9'
  | _ => '0'

/-- Fuel-driven core of decimal rendering (most significant digit first). -/
def toDecimalAux : Nat → Nat → List Char
  | 0, _ => []
  | fuel + 1, n =>
    if n < 10 then [digitChar n]
    else toDecimalAux fuel (n / 10) ++ [digitChar (n % 10)]

/-- Decimal rendering of a natural number, as JavaScript `toString()`. -/
def toDecimal (n : Nat) : List Char := toDecimalAux (n + 1) n

/-- Decimal rendering of an integer, as JavaScript `toString()`:
a leading minus sign for negative values. -/
def intToDecimal (i : Int) : List Char :=
  if i < 0 then '-' :: toDecimal i.natAbs else toDecimal i.toNat

/-- JavaScript `padStart(2, '0')`. -/
def padTwo (l : List Char) : List Char :=
  if l.length < 2 then List.replicate (2 - l.length) '0' ++ l else l

/-- The character class `\d` of the validators. -/
def isDigitCh (c : Char) : Bool := decide ('0' ≤ c) && decide (c ≤ '9')

/-- The character class `[A-Z]` of the PIN validator. -/
def isUpperCh (c : Char) : Bool := decide ('A' ≤ c) && decide (c ≤ 'Z')

/-- JavaScript `String.fromCharCode` on one code unit: the argument is
reduced modulo `2 ^ 16` (`ToUint16`) and mapped to the code point. -/
def jsFromCharCode (i : Int) : Char := Char.ofNat (i % 65536).toNat

/-- One step of `seededRandom`'s state update:
`value = (value * 9301 + 49297) % 233280` with JavaScript's truncated
remainder. -/
def nextState (v : Int) : Int := (v * 9301 + 49297).tmod 233280

/-- The RNG state after `n` updates, starting from `seed`. -/
def rngState (seed : Int) : Nat → Int
  | 0 => seed
  | n + 1 => nextState (rngState seed n)

/-- The value the seeded RNG returns from state `v` (after the update):
`value / 233280`. -/
def emit (v : Int) : ℚ := (v : ℚ) / 233280

/-- The `k`-th value (0-based) returned by `seededRandom seed`. -/
def rngEmit (seed : Int) (k : Nat) : ℚ := emit (rngState seed (k + 1))

/-- `generatePIN` with a seed: two draws; digit block
`Math.floor(random() * 900000000 + 100000000)`, then a letter
`String.fromCharCode(Math.floor(random() * 26) + 65)`; result
`` `P${digits}${letter}` ``.  The draws are written in exact integer
arithmetic (`v * c / 233280` is the floor of `(v / 233280) * c`). -/
def generatePIN (seed : Int) : List Char :=
  let v1 := nextState seed
  let v2 := nextState v1
  let digits := intToDecimal (v1 * 900000000 / 233280 + 100000000)
  let letter := jsFromCharCode (v2 * 26 / 233280 + 65)
  'P' :: digits ++ [letter]

/-- `generateTCC` with a seed: one draw,
`Math.floor(random() * 90000000 + 10000000).toString().slice(0, 6)`,
result `` `TCC${digits}` ``. -/
def generateTCC (seed : Int) : List Char :=
  let v1 := nextState seed
  let digits := (intToDecimal (v1 * 90000000 / 233280 + 10000000)).take 6
  'T' :: 'C' :: 'C' :: digits

/-- `generateEslip` with a seed: one draw,
`Math.floor(random() * 900000000 + 100000000)`, result
`` `ESLIP${digits}` ``. -/
def generateEslip (seed : Int) : List Char :=
  let v1 := nextState seed
  let digits := intToDecimal (v1 * 900000000 / 233280 + 100000000)
  'E' :: 'S' :: 'L' :: 'I' :: 'P' :: digits

/-- `validatePINFormat`: the regular expression `^P\d{9}[A-Z]$`. -/
def validatePINFormat (s : List Char) : Bool :=
  match s with
  | p :: rest =>
    p == 'P' && rest.length == 10 && (rest.take 9).all isDigitCh &&
      (rest.drop 9).all isUpperCh
  | [] => false

/-- `validateTCCFormat`: the regular expression `^TCC\d{6,8}$`. -/
def validateTCCFormat (s : List Char) : Bool :=
  match s with
  | a :: b :: c :: ds =>
    a == 'T' && b == 'C' && c == 'C' && decide (6 ≤ ds.length) &&
      decide (ds.length ≤ 8) && ds.all isDigitCh
  | _ => false

/-- `validateEslipFormat`: the regular expression `^ESLIP\d{9,12}$`. -/
def validateEslipFormat (s : List Char) : Bool :=
  match s with
  | a :: b :: c :: d :: e :: ds =>
    a == 'E' && b == 'S' && c == 'L' && d == 'I' && e == 'P' &&
      decide (9 ≤ ds.length) && decide (ds.length ≤ 12) && ds.all isDigitCh
  | _ => false

/- ### Unseeded generators: platform draws as rationals -/

/-- One unseeded `generatePIN()` call from two platform draws. -/
def pinFrom (r1 r2 : ℚ) : List Char :=
  'P' :: intToDecimal ⌊r1 * 900000000 + 100000000⌋ ++
    [jsFromCharCode (⌊r2 * 26⌋ + 65)]

/-- One unseeded `generateTCC()` call from one platform draw. -/
def tccFrom (r : ℚ) : List Char :=
  'T' :: 'C' :: 'C' :: (intToDecimal ⌊r * 90000000 + 10000000⌋).take 6

/-- One unseeded `generateEslip()` call from one platform draw. -/
def eslipFrom (r : ℚ) : List Char :=
  'E' :: 'S' :: 'L' :: 'I' :: 'P' :: intToDecimal ⌊r * 900000000 + 100000000⌋

/- ### Bulk generators -/

/-- Insertion into a JavaScript `Set`: insertion order is preserved and a
value already present is ignored. -/
def setAdd (x : List Char) (acc : List (List Char)) : List (List Char) :=
  if x ∈ acc then acc else acc ++ [x]

/-- The `while (set.size < count) set.add(gen())` resampling loop, with
explicit fuel (`none` models the loop still running after `fuel`
iterations).  `i` is the index of the next unused platform draw and `step`
the number of draws one generator call consumes. -/
def bulkLoop (g : Nat → List Char) (step : Nat) (count : Int) :
    Nat → Nat → List (List Char) → Option (List (List Char))
  | 0, _, acc => if (acc.length : Int) < count then none else some acc
  | fuel + 1, i, acc =>
    if (acc.length : Int) < count then
      bulkLoop g step count fuel (i + step) (setAdd (g i) acc)
    else some acc

/-- `generatePINs(count, unique)` driven by the platform-randomness stream
`f` (draw `i` is `f i`): for `unique = false`,
`Array.from({length: count}, () => generatePIN())` (a nonpositive length
is clamped to `0` by `ToLength`); for `unique = true`, the resampling
loop.  Call `k` consumes draws `2k` and `2k + 1`. -/
def generatePINs (f : Nat → ℚ) (count : Int) (unique : Bool) (fuel : Nat) :
    Option (List (List Char)) :=
  if unique then bulkLoop (fun i => pinFrom (f i) (f (i + 1))) 2 count fuel 0 []
  else some ((List.range count.toNat).map fun k => pinFrom (f (2 * k)) (f (2 * k + 1)))

/-- `generateTCCs(count, unique)`, one draw per call. -/
def generateTCCs (f : Nat → ℚ) (count : Int) (unique : Bool) (fuel : Nat) :
    Option (List (List Char)) :=
  if unique then bulkLoop (fun i => tccFrom (f i)) 1 count fuel 0 []
  else some ((List.range count.toNat).map fun k => tccFrom (f k))

/-- `generateEslips(count, unique)`, one draw per call. -/
def generateEslips (f : Nat → ℚ) (count : Int) (unique : Bool) (fuel : Nat) :
    Option (List (List Char)) :=
  if unique then bulkLoop (fun i => eslipFrom (f i)) 1 count fuel 0 []
  else some ((List.range count.toNat).map fun k => eslipFrom (f k))

/- ### Amounts -/

/-- JavaScript `Number(x.toFixed(d))` in exact arithmetic: `toFixed`
negates a negative argument first, then picks the integer `n` minimising
`|n / 10^d - x|`, ties to the larger `n`; that is `⌊x * 10^d + 1/2⌋`. -/
def jsToFixed (d : Nat) (x : ℚ) : ℚ :=
  if x < 0 then -((⌊-x * 10 ^ d + 1 / 2⌋ : ℚ) / 10 ^ d)
  else (⌊x * 10 ^ d + 1 / 2⌋ : ℚ) / 10 ^ d

/-- `generateAmount(min, max, decimals)` from one draw `r`:
`random() * (max - min) + min`, rounded by `toFixed(decimals)` and
returned as a number. -/
def generateAmount (lo hi : ℚ) (decimals : Nat) (r : ℚ) : ℚ :=
  jsToFixed decimals (r * (hi - lo) + lo)

/- ### Dates -/

/-- Truncation toward zero: JavaScript `ToIntegerOrInfinity` on a finite
value, applied by the `Date` constructor to its millisecond argument. -/
def ratTrunc (q : ℚ) : Int := q.num.tdiv (q.den : Int)

/-- Days-to-civil-date conversion (proleptic Gregorian calendar): the
year, month (1–12) and day a JavaScript `Date` reports for a timestamp,
with the model's clock in UTC. -/
def civilFromDays (z0 : Int) : Int × Int × Int :=
  let z := z0 + 719468
  let era := z.fdiv 146097
  let doe := z - era * 146097
  let yoe := (doe - doe.fdiv 1460 + doe.fdiv 36524 - doe.fdiv 146096).fdiv 365
  let y := yoe + era * 400
  let doy := doe - (365 * yoe + yoe.fdiv 4 - yoe.fdiv 100)
  let mp := (5 * doy + 2).fdiv 153
  let d := doy - (153 * mp + 2).fdiv 5 + 1
  let m := mp + if mp < 10 then 3 else -9
  (if m ≤ 2 then y + 1 else y, m, d)

/-- `formatDate`: `` `${year}-${month padded}-${day padded}` `` for the
civil date of the timestamp `t` (milliseconds since the epoch). -/
def formatDate (t : Int) : List Char :=
  let days := t.fdiv 86400000
  let c := civilFromDays days
  intToDecimal c.1 ++ '-' :: padTwo (intToDecimal c.2.1) ++
    '-' :: padTwo (intToDecimal c.2.2)

/-- `generateDate(daysAgo, daysFuture)` from the current time `now` (ms)
and one draw `r`:
`now - daysAgo * 86400000 + r * (daysAgo + daysFuture) * 86400000`, as the
timestamp of the constructed `Date`. -/
def generateDate (daysAgo daysFuture : Int) (now : Int) (r : ℚ) : Int :=
  let rangeMs := (daysAgo + daysFuture) * 24 * 60 * 60 * 1000
  let pastMs := daysAgo * 24 * 60 * 60 * 1000
  ratTrunc ((now : ℚ) - (pastMs : ℚ) + r * (rangeMs : ℚ))

/- ### Tax periods -/

/-- `generateTaxPeriod(yearsAgo, month)`: `year = currentYear - yearsAgo`;
`mon = month || Math.floor(Math.random() * 12) + 1`, so JavaScript's `||`
treats a month of `0` (falsy) like an absent month; result
`` `${year}${mon.toString().padStart(2, '0')}` ``.  The current year and
the platform draw `r` are parameters of the model. -/
def generateTaxPeriod (currentYear yearsAgo : Int) (month : Option Int)
    (r : ℚ) : List Char :=
  let year := currentYear - yearsAgo
  let mon : Int :=
    match month with
    | some m => if m = 0 then ⌊r * 12⌋ + 1 else m
    | none => ⌊r * 12⌋ + 1
  intToDecimal year ++ padTwo (intToDecimal mon)

/- ### Basic facts about decimal rendering -/

theorem toDecimalAux_fuel (fuel n : Nat) (h : n < fuel) :
    toDecimalAux fuel n = toDecimalAux (n + 1) n := by
  induction n using Nat.strong_induction_on generalizing fuel with
  | _ n ih =>
    match fuel, h with
    | f + 1, h =>
      by_cases h10 : n < 10
      · simp [toDecimalAux, h10]
      · have hd : n / 10 < n := Nat.div_lt_self (by omega) (by omega)
        have h1 : toDecimalAux f (n / 10) = toDecimalAux (n / 10 + 1) (n / 10) :=
          ih (n / 10) hd f (by omega)
        have h2 : toDecimalAux n (n / 10) = toDecimalAux (n / 10 + 1) (n / 10) :=
          ih (n / 10) hd n (by omega)
        simp [toDecimalAux, h10, h1, h2]

theorem toDecimal_eq (n : Nat) :
    toDecimal n =
      if n < 10 then [digitChar n]
      else toDecimal (n / 10) ++ [digitChar (n % 10)] := by
  by_cases h10 : n < 10
  · simp [toDecimal, toDecimalAux, h10]
  · have hd : n / 10 < n := Nat.div_lt_self (by omega) (by omega)
    have h1 : toDecimal n =
        if n < 10 then [digitChar n]
        else toDecimalAux n (n / 10) ++ [digitChar (n % 10)] := rfl
    rw [h1, if_neg h10, if_neg h10, toDecimalAux_fuel n (n / 10) hd]
    rfl

theorem digitChar_isDigit : ∀ d < 10, isDigitCh (digitChar d) = true := by decide

theorem toDecimal_all_digits (n : Nat) : (toDecimal n).all isDigitCh = true := by
  induction n using Nat.strong_induction_on with
  | _ n ih =>
    rw [toDecimal_eq]
    by_cases h10 : n < 10
    · simp [h10, digitChar_isDigit n h10]
    · have hd : n / 10 < n := Nat.div_lt_self (by omega) (by omega)
      simp [h10, List.all_append, ih (n / 10) hd,
        digitChar_isDigit (n % 10) (Nat.mod_lt n (by omega))]

theorem toDecimal_length (k : Nat) :
    ∀ n, 10 ^ k ≤ n → n < 10 ^ (k + 1) → (toDecimal n).length = k + 1 := by
  induction k with
  | zero =>
    intro n _ h2
    rw [toDecimal_eq]
    simp at h2
    simp [h2]
  | succ k ih =>
    intro n h1 h2
    have h10 : ¬ n < 10 := by
      have : (10 : Nat) ^ 1 ≤ 10 ^ (k + 1) := Nat.pow_le_pow_right (by omega) (by omega)
      simp at this
      omega
    rw [toDecimal_eq]
    simp only [h10, if_false, List.length_append, List.length_singleton]
    have hlo : 10 ^ k ≤ n / 10 := by
      rw [Nat.le_div_iff_mul_le (by omega)]
      calc 10 ^ k * 10 = 10 ^ (k + 1) := by ring
        _ ≤ n := h1
    have hhi : n / 10 < 10 ^ (k + 1) := by
      rw [Nat.div_lt_iff_lt_mul (by omega)]
      calc n < 10 ^ (k + 1 + 1) := h2
        _ = 10 ^ (k + 1) * 10 := by ring
    rw [ih (n / 10) hlo hhi]

/- ### Bounds on the seeded RNG -/

theorem nextState_nonneg (v : Int) (h : 0 ≤ v) : 0 ≤ nextState v :=
  Int.tmod_nonneg 233280 (by nlinarith [h])

theorem nextState_lt (v : Int) (_h : 0 ≤ v) : nextState v < 233280 :=
  Int.tmod_lt_of_pos _ (by norm_num)

theorem rngState_nonneg (s : Int) (hs : 0 ≤ s) : ∀ k, 0 ≤ rngState s k
  | 0 => hs
  | k + 1 => nextState_nonneg _ (rngState_nonneg s hs k)

theorem rngState_bounds (s : Int) (hs : 0 ≤ s) (k : Nat) :
    0 ≤ rngState s (k + 1) ∧ rngState s (k + 1) < 233280 :=
  ⟨nextState_nonneg _ (rngState_nonneg s hs k),
   nextState_lt _ (rngState_nonneg s hs k)⟩

theorem seeded_draw_bounds (v c : Int) (h0 : 0 ≤ v) (h1 : v < 233280)
    (hc : 0 < c) : 0 ≤ v * c / 233280 ∧ v * c / 233280 < c := by
  constructor
  · exact Int.ediv_nonneg (mul_nonneg h0 (le_of_lt hc)) (by norm_num)
  · rw [Int.ediv_lt_iff_lt_mul (by norm_num)]
    nlinarith [mul_pos (show (0 : ℤ) < 233280 - v by omega) hc]

/- ### Digit blocks of the seeded generators -/

theorem pin_digit_block (v : Int) (h0 : 0 ≤ v) (h1 : v < 233280) :
    (intToDecimal (v * 900000000 / 233280 + 100000000)).length = 9 ∧
    (intToDecimal (v * 900000000 / 233280 + 100000000)).all isDigitCh = true := by
  obtain ⟨hl, hu⟩ := seeded_draw_bounds v 900000000 h0 h1 (by norm_num)
  rw [intToDecimal, if_neg (by omega)]
  refine ⟨?_, toDecimal_all_digits _⟩
  have e8 : (10 : ℕ) ^ 8 = 100000000 := by norm_num
  have e9 : (10 : ℕ) ^ 9 = 1000000000 := by norm_num
  exact toDecimal_length 8 _ (by omega) (by omega)

theorem tcc_digit_block (v : Int) (h0 : 0 ≤ v) (h1 : v < 233280) :
    ((intToDecimal (v * 90000000 / 233280 + 10000000)).take 6).length = 6 ∧
    ((intToDecimal (v * 90000000 / 233280 + 10000000)).take 6).all isDigitCh = true := by
  obtain ⟨hl, hu⟩ := seeded_draw_bounds v 90000000 h0 h1 (by norm_num)
  rw [intToDecimal, if_neg (by omega)]
  have e7 : (10 : ℕ) ^ 7 = 10000000 := by norm_num
  have e8 : (10 : ℕ) ^ 8 = 100000000 := by norm_num
  have hlen : (toDecimal (v * 90000000 / 233280 + 10000000).toNat).length = 8 :=
    toDecimal_length 7 _ (by omega) (by omega)
  constructor
  · rw [List.length_take, hlen]
    omega
  · have hall := toDecimal_all_digits (v * 90000000 / 233280 + 10000000).toNat
    simp only [List.all_eq_true] at hall ⊢
    intro c hc
    exact hall c (List.mem_of_mem_take hc)

/- ### Validators accept well-shaped strings -/

theorem validatePIN_build (ds : List Char) (c : Char) (h9 : ds.length = 9)
    (hd : ds.all isDigitCh = true) (hc : isUpperCh c = true) :
    validatePINFormat ('P' :: ds ++ [c]) = true := by
  simp only [validatePINFormat, List.take_left' h9, List.drop_left' h9]
  simp [h9, hd, hc]

theorem validateTCC_build (ds : List Char) (h6 : 6 ≤ ds.length)
    (h8 : ds.length ≤ 8) (hd : ds.all isDigitCh = true) :
    validateTCCFormat ('T' :: 'C' :: 'C' :: ds) = true := by
  simp [validateTCCFormat, h6, h8, hd]

theorem validateEslip_build (ds : List Char) (h9 : 9 ≤ ds.length)
    (h12 : ds.length ≤ 12) (hd : ds.all isDigitCh = true) :
    validateEslipFormat ('E' :: 'S' :: 'L' :: 'I' :: 'P' :: ds) = true := by
  simp [validateEslipFormat, h9, h12, hd]

theorem upper_ofNat : ∀ m < 91, 65 ≤ m → isUpperCh (Char.ofNat m) = true := by
  decide

theorem upper_fromCharCode (k : Int) (h1 : 65 ≤ k) (h2 : k ≤ 90) :
    isUpperCh (jsFromCharCode k) = true := by
  rw [jsFromCharCode, Int.emod_eq_of_lt (by omega) (by omega)]
  exact upper_ofNat k.toNat (by omega) (by omega)

/- ### Claim C1 -/

theorem seeded_validators_accept (s : Int) (hs : 0 ≤ s) :
    validatePINFormat (generatePIN s) = true ∧
    validateTCCFormat (generateTCC s) = true ∧
    validateEslipFormat (generateEslip s) = true := by
  have h1 : 0 ≤ nextState s := nextState_nonneg s hs
  have h2 : nextState s < 233280 := nextState_lt s hs
  have h1' : 0 ≤ nextState (nextState s) := nextState_nonneg _ h1
  have h2' : nextState (nextState s) < 233280 := nextState_lt _ h1
  obtain ⟨hk0, hk1⟩ := seeded_draw_bounds (nextState (nextState s)) 26 h1' h2' (by norm_num)
  refine ⟨?_, ?_, ?_⟩
  · simp only [generatePIN]
    exact validatePIN_build _ _ (pin_digit_block _ h1 h2).1
      (pin_digit_block _ h1 h2).2
      (upper_fromCharCode _ (by omega) (by omega))
  · simp only [generateTCC]
    exact validateTCC_build _ (by rw [(tcc_digit_block _ h1 h2).1])
      (by rw [(tcc_digit_block _ h1 h2).1]; omega) (tcc_digit_block _ h1 h2).2
  · simp only [generateEslip]
    exact validateEslip_build _ (by rw [(pin_digit_block _ h1 h2).1])
      (by rw [(pin_digit_block _ h1 h2).1]; omega) (pin_digit_block _ h1 h2).2

/-- C1 (amended): for every nonnegative seed `s`, the generated value
satisfies its paired validator: `validatePINFormat (generatePIN s)`,
`validateTCCFormat (generateTCC s)` and `validateEslipFormat
(generateEslip s)` all hold.  (For negative seeds the JavaScript `%`
returns negative values and the claim fails, see the counterexample.) -/
theorem c1_nonneg_seed_generator_validator_roundtrip (s : Int) (hs : 0 ≤ s) :
    validatePINFormat (generatePIN s) = true ∧
    validateTCCFormat (generateTCC s) = true ∧
    validateEslipFormat (generateEslip s) = true :=
  seeded_validators_accept s hs

/-- Witness for C1 at the concrete seed `12345`. -/
theorem c1_witness :
    0 ≤ (12345 : Int) ∧
    (validatePINFormat (generatePIN 12345) = true ∧
     validateTCCFormat (generateTCC 12345) = true ∧
     validateEslipFormat (generateEslip 12345) = true) :=
  ⟨by decide, c1_nonneg_seed_generator_validator_roundtrip 12345 (by decide)⟩

/-- Counterexample to C1 as stated over all seeds: at seed `-6` the PIN
digit draw is `74888117` (eight digits, because the truncated remainder
made the draw negative), so `generatePIN (-6)` has no trailing letter slot
and fails its validator. -/
theorem c1_cex_negative_seed :
    ¬ (validatePINFormat (generatePIN (-6)) = true ∧
       validateTCCFormat (generateTCC (-6)) = true ∧
       validateEslipFormat (generateEslip (-6)) = true) := by decide

/- ### Claim C2 -/

/-- C2 (amended): for every nonnegative seed, every value emitted by the
seeded RNG (the recurrence `v' = (v * 9301 + 49297) % 233280`, emitted as
`v' / 233280`) lies in `[0, 1)`. -/
theorem c2_rng_emits_in_unit_interval (s : Int) (k : Nat) (hs : 0 ≤ s) :
    0 ≤ rngEmit s k ∧ rngEmit s k < 1 := by
  obtain ⟨h0, h1⟩ := rngState_bounds s hs k
  constructor
  · exact div_nonneg (by exact_mod_cast h0) (by norm_num)
  · rw [rngEmit, emit, div_lt_one (by norm_num)]
    exact_mod_cast h1

/-- Witness for C2 at seed `12345`, first emitted value. -/
theorem c2_witness :
    0 ≤ (12345 : Int) ∧ (0 ≤ rngEmit 12345 0 ∧ rngEmit 12345 0 < 1) :=
  ⟨by decide, c2_rng_emits_in_unit_interval 12345 0 (by decide)⟩

/-- Counterexample to C2 as stated over all seeds: at seed `-6` the first
state is `(-6 * 9301 + 49297) % 233280 = -6509` under JavaScript's
truncated remainder, so the first emitted value `-6509 / 233280` is
negative. -/
theorem c2_cex_negative_seed : ¬ (0 ≤ rngEmit (-6) 0 ∧ rngEmit (-6) 0 < 1) := by
  have h : rngState (-6) 1 = -6509 := by decide
  intro hc
  obtain ⟨h0, -⟩ := hc
  rw [rngEmit, h, emit] at h0
  norm_num at h0

/- ### Claim C3 -/

/-- C3 (amended): for every nonnegative seed, `generateTCC` is the prefix
`TCC` followed by exactly 6 digits and `generateEslip` is the prefix
`ESLIP` followed by exactly 9 digits, so both outputs are accepted by
their validators (whose patterns allow 6–8 and 9–12 digits). -/
theorem c3_tcc_eslip_exact_digit_counts (s : Int) (hs : 0 ≤ s) :
    (generateTCC s).take 3 = ['T', 'C', 'C'] ∧
    ((generateTCC s).drop 3).length = 6 ∧
    ((generateTCC s).drop 3).all isDigitCh = true ∧
    (generateEslip s).take 5 = ['E', 'S', 'L', 'I', 'P'] ∧
    ((generateEslip s).drop 5).length = 9 ∧
    ((generateEslip s).drop 5).all isDigitCh = true ∧
    validateTCCFormat (generateTCC s) = true ∧
    validateEslipFormat (generateEslip s) = true := by
  have h1 : 0 ≤ nextState s := nextState_nonneg s hs
  have h2 : nextState s < 233280 := nextState_lt s hs
  exact ⟨rfl, (tcc_digit_block _ h1 h2).1, (tcc_digit_block _ h1 h2).2,
    rfl, (pin_digit_block _ h1 h2).1, (pin_digit_block _ h1 h2).2,
    (seeded_validators_accept s hs).2.1, (seeded_validators_accept s hs).2.2⟩

/-- Witness for C3 at the concrete seed `12345`
(`generateTCC 12345 = "TCC471844"`, `generateEslip 12345 = "ESLIP471844135"`). -/
theorem c3_witness :
    0 ≤ (12345 : Int) ∧
    ((generateTCC 12345).take 3 = ['T', 'C', 'C'] ∧
     ((generateTCC 12345).drop 3).length = 6 ∧
     ((generateTCC 12345).drop 3).all isDigitCh = true ∧
     (generateEslip 12345).take 5 = ['E', 'S', 'L', 'I', 'P'] ∧
     ((generateEslip 12345).drop 5).length = 9 ∧
     ((generateEslip 12345).drop 5).all isDigitCh = true ∧
     validateTCCFormat (generateTCC 12345) = true ∧
     validateEslipFormat (generateEslip 12345) = true) :=
  ⟨by decide, c3_tcc_eslip_exact_digit_counts 12345 (by decide)⟩

/-- Counterexample to C3 as stated over all seeds: at seed `-100` the
draws are negative, `generateTCC (-100)` is `"TCC-59815"` (the minus sign
survives `slice(0, 6)`) and `generateEslip (-100)` is `"ESLIP-598159723"`;
neither is prefix-plus-digits and both validators reject. -/
theorem c3_cex_negative_seed :
    ¬ (((generateTCC (-100)).drop 3).all isDigitCh = true ∧
       validateTCCFormat (generateTCC (-100)) = true ∧
       validateEslipFormat (generateEslip (-100)) = true) := by decide

/- ### Claim C8 -/

/-- C8: the seeded generators are deterministic.  Each call performs a
fixed number of state updates of `seededRandom` in a fixed order, so the
output is a function of the first RNG state alone: seeds with equal first
update give equal outputs, and in particular two calls with the same seed
return equal results (`t := s`). -/
theorem c8_seeded_generators_deterministic (s t : Int)
    (h : nextState s = nextState t) :
    generatePIN s = generatePIN t ∧ generateTCC s = generateTCC t ∧
    generateEslip s = generateEslip t := by
  refine ⟨?_, ?_, ?_⟩ <;> simp only [generatePIN, generateTCC, generateEslip, h]

/-- Witness for C8: two calls with the same concrete seed `12345` agree. -/
theorem c8_witness :
    nextState 12345 = nextState 12345 ∧
    (generatePIN 12345 = generatePIN 12345 ∧
     generateTCC 12345 = generateTCC 12345 ∧
     generateEslip 12345 = generateEslip 12345) :=
  ⟨rfl, c8_seeded_generators_deterministic 12345 12345 rfl⟩

/- ### Claim C9 -/

/-- C9: for every seed, the digit block of `generatePIN` (the characters
between the leading `P` and the trailing letter) equals the digit block of
`generateEslip` (the characters after `ESLIP`): both are the decimal
rendering of `floor(r * 900000000 + 100000000)` of the same first draw. -/
theorem c9_pin_eslip_share_digit_block (s : Int) :
    ((generatePIN s).drop 1).dropLast = (generateEslip s).drop 5 := by
  simp [generatePIN, generateEslip]

theorem emit_floor_scale (v c : Int) : ⌊emit v * (c : ℚ)⌋ = v * c / 233280 := by
  have h : emit v * (c : ℚ) = ((v * c : Int) : ℚ) / ((233280 : ℕ) : ℚ) := by
    rw [emit]
    push_cast
    ring
  rw [h, Rat.floor_intCast_div_natCast]
  norm_num

/-- The seeded `generatePIN` is the two-draw form applied to the values the
seeded RNG emits: the integer arithmetic in `generatePIN` is exactly the
`Math.floor` of the scaled rational draw. -/
theorem generatePIN_eq_pinFrom (s : Int) :
    generatePIN s = pinFrom (rngEmit s 0) (rngEmit s 1) := by
  have hr0 : rngEmit s 0 = emit (nextState s) := rfl
  have hr1 : rngEmit s 1 = emit (nextState (nextState s)) := rfl
  have h9 : ⌊rngEmit s 0 * 900000000 + 100000000⌋
      = nextState s * 900000000 / 233280 + 100000000 := by
    have hc : ((900000000 : Int) : ℚ) = 900000000 := by norm_num
    have hb : ((100000000 : Int) : ℚ) = 100000000 := by norm_num
    rw [hr0, ← hc, ← hb, Int.floor_add_int, emit_floor_scale]
  have h26 : ⌊rngEmit s 1 * 26⌋ = nextState (nextState s) * 26 / 233280 := by
    have hc : ((26 : Int) : ℚ) = 26 := by norm_num
    rw [hr1, ← hc]
    exact emit_floor_scale _ 26
  simp only [generatePIN, pinFrom, h9, h26]

/-- The seeded `generateTCC` as the one-draw form. -/
theorem generateTCC_eq_tccFrom (s : Int) :
    generateTCC s = tccFrom (rngEmit s 0) := by
  have hr0 : rngEmit s 0 = emit (nextState s) := rfl
  have h8 : ⌊rngEmit s 0 * 90000000 + 10000000⌋
      = nextState s * 90000000 / 233280 + 10000000 := by
    have hc : ((90000000 : Int) : ℚ) = 90000000 := by norm_num
    have hb : ((10000000 : Int) : ℚ) = 10000000 := by norm_num
    rw [hr0, ← hc, ← hb, Int.floor_add_int, emit_floor_scale]
  simp only [generateTCC, tccFrom, h8]

/-- The seeded `generateEslip` as the one-draw form. -/
theorem generateEslip_eq_eslipFrom (s : Int) :
    generateEslip s = eslipFrom (rngEmit s 0) := by
  have hr0 : rngEmit s 0 = emit (nextState s) := rfl
  have h9 : ⌊rngEmit s 0 * 900000000 + 100000000⌋
      = nextState s * 900000000 / 233280 + 100000000 := by
    have hc : ((900000000 : Int) : ℚ) = 900000000 := by norm_num
    have hb : ((100000000 : Int) : ℚ) = 100000000 := by norm_num
    rw [hr0, ← hc, ← hb, Int.floor_add_int, emit_floor_scale]
  simp only [generateEslip, eslipFrom, h9]

theorem setAdd_nodup (x : List Char) (acc : List (List Char))
    (h : acc.Nodup) : (setAdd x acc).Nodup := by
  rw [setAdd]
  split
  · exact h
  · next h2 => simp [List.nodup_append, h, h2]

theorem setAdd_length_le (x : List Char) (acc : List (List Char)) :
    (setAdd x acc).length ≤ acc.length + 1 := by
  rw [setAdd]
  split <;> simp

theorem bulkLoop_spec (g : Nat → List Char) (step : Nat) (count : Int) :
    ∀ (fuel i : Nat) (acc : List (List Char)), acc.Nodup →
      (acc.length : Int) ≤ count →
      ∀ l, bulkLoop g step count fuel i acc = some l →
        l.Nodup ∧ (l.length : Int) = count := by
  intro fuel
  induction fuel with
  | zero =>
    intro i acc hnd hle l h
    by_cases hc : (acc.length : Int) < count
    · simp [bulkLoop, hc] at h
    · rw [bulkLoop, if_neg hc] at h
      obtain rfl : acc = l := Option.some.inj h
      exact ⟨hnd, by omega⟩
  | succ fuel ih =>
    intro i acc hnd hle l h
    by_cases hc : (acc.length : Int) < count
    · rw [bulkLoop, if_pos hc] at h
      have hlen : ((setAdd (g i) acc).length : Int) ≤ count := by
        have := setAdd_length_le (g i) acc
        omega
      exact ih (i + step) (setAdd (g i) acc) (setAdd_nodup _ _ hnd) hlen l h
    · rw [bulkLoop, if_neg hc] at h
      obtain rfl : acc = l := Option.some.inj h
      exact ⟨hnd, by omega⟩

/- ### Claim C4 -/

/-- C4: for every count `n ≥ 0` (a natural number here), whenever the
unique-mode bulk generator returns, its result has length exactly `n` and
pairwise distinct elements; non-unique mode always returns a sequence of
length exactly `n`, and duplicates are possible there (last conjunct: a
constant draw stream yields a duplicated pair). -/
theorem c4_bulk_generators_length_and_distinct (f : Nat → ℚ) (n fuel : Nat) :
    ((generatePINs f n true fuel).elim True fun l =>
      l.Nodup ∧ (l.length : Int) = n) ∧
    ((generatePINs f n false fuel).elim True fun l => (l.length : Int) = n) ∧
    ((generateTCCs f n true fuel).elim True fun l =>
      l.Nodup ∧ (l.length : Int) = n) ∧
    ((generateTCCs f n false fuel).elim True fun l => (l.length : Int) = n) ∧
    ((generateEslips f n true fuel).elim True fun l =>
      l.Nodup ∧ (l.length : Int) = n) ∧
    ((generateEslips f n false fuel).elim True fun l => (l.length : Int) = n) ∧
    ¬ ((generatePINs (fun _ => 0) 2 false 0).elim True fun l => l.Nodup) := by
  have hstart : (([] : List (List Char)).length : Int) ≤ (n : Int) := by simp
  refine ⟨?_, ?_, ?_, ?_, ?_, ?_, ?_⟩
  · rw [generatePINs, if_pos rfl]
    cases hb : bulkLoop (fun i => pinFrom (f i) (f (i + 1))) 2 (n : Int) fuel 0 [] with
    | none => trivial
    | some l => exact bulkLoop_spec _ 2 (n : Int) fuel 0 [] List.nodup_nil hstart l hb
  · simp [generatePINs]
  · rw [generateTCCs, if_pos rfl]
    cases hb : bulkLoop (fun i => tccFrom (f i)) 1 (n : Int) fuel 0 [] with
    | none => trivial
    | some l => exact bulkLoop_spec _ 1 (n : Int) fuel 0 [] List.nodup_nil hstart l hb
  · simp [generateTCCs]
  · rw [generateEslips, if_pos rfl]
    cases hb : bulkLoop (fun i => eslipFrom (f i)) 1 (n : Int) fuel 0 [] with
    | none => trivial
    | some l => exact bulkLoop_spec _ 1 (n : Int) fuel 0 [] List.nodup_nil hstart l hb
  · simp [generateEslips]
  · simp [generatePINs, List.range_succ, List.nodup_cons]

/- ### Claim C5 -/

/-- C5: for every count `n ≤ 0` and both values of the unique flag, the
bulk generators return the empty sequence; in unique mode zero fuel
suffices, i.e. the resampling loop exits before its first iteration. -/
theorem c5_nonpositive_count_empty (f : Nat → ℚ) (n : Int) (h : n ≤ 0) :
    generatePINs f n true 0 = some [] ∧ generatePINs f n false 0 = some [] ∧
    generateTCCs f n true 0 = some [] ∧ generateTCCs f n false 0 = some [] ∧
    generateEslips f n true 0 = some [] ∧ generateEslips f n false 0 = some [] := by
  have ht : n.toNat = 0 := by omega
  have hc : ¬ ((([] : List (List Char)).length : Int) < n) := by
    simp only [List.length_nil, Int.natCast_zero]
    omega
  refine ⟨?_, ?_, ?_, ?_, ?_, ?_⟩ <;>
    simp [generatePINs, generateTCCs, generateEslips, bulkLoop, hc, ht, h]

/-- Witness for C5 at the concrete count `-3` and a constant draw stream. -/
theorem c5_witness :
    (-3 : Int) ≤ 0 ∧
    (generatePINs (fun _ => 0) (-3) true 0 = some [] ∧
     generatePINs (fun _ => 0) (-3) false 0 = some [] ∧
     generateTCCs (fun _ => 0) (-3) true 0 = some [] ∧
     generateTCCs (fun _ => 0) (-3) false 0 = some [] ∧
     generateEslips (fun _ => 0) (-3) true 0 = some [] ∧
     generateEslips (fun _ => 0) (-3) false 0 = some []) :=
  ⟨by decide, c5_nonpositive_count_empty (fun _ => 0) (-3) (by decide)⟩

/- ### Claim C6 -/

/-- C6 (amended): for every draw `r ∈ [0, 1)` — equivalently, by C2, for
every nonnegative seed — `generateAmount 1000 2000 2` returns a value `n`
with `1000 ≤ n ≤ 2000` that has at most 2 fractional digits
(`n * 100` is an integer). -/
theorem c6_amount_bounds_and_two_decimals (r : ℚ) (h0 : 0 ≤ r) (h1 : r < 1) :
    1000 ≤ generateAmount 1000 2000 2 r ∧
    generateAmount 1000 2000 2 r ≤ 2000 ∧
    ∃ m : Int, generateAmount 1000 2000 2 r * 100 = (m : ℚ) := by
  have hx0 : (1000 : ℚ) ≤ r * (2000 - 1000) + 1000 := by nlinarith
  have hx1 : r * (2000 - 1000) + 1000 < 2000 := by nlinarith
  have hneg : ¬ (r * (2000 - 1000) + 1000 < 0) := by linarith
  have hk0 : (100000 : Int) ≤ ⌊(r * (2000 - 1000) + 1000) * 10 ^ 2 + 1 / 2⌋ := by
    apply Int.le_floor.mpr
    push_cast
    nlinarith
  have hk1 : ⌊(r * (2000 - 1000) + 1000) * 10 ^ 2 + 1 / 2⌋ ≤ 200000 := by
    have hlt : ⌊(r * (2000 - 1000) + 1000) * 10 ^ 2 + 1 / 2⌋ < 200001 := by
      apply Int.floor_lt.mpr
      push_cast
      nlinarith
    omega
  rw [generateAmount, jsToFixed, if_neg hneg]
  refine ⟨?_, ?_, ⟨⌊(r * (2000 - 1000) + 1000) * 10 ^ 2 + 1 / 2⌋, ?_⟩⟩
  · rw [le_div_iff₀ (by norm_num)]
    have hq : ((100000 : Int) : ℚ)
        ≤ (⌊(r * (2000 - 1000) + 1000) * 10 ^ 2 + 1 / 2⌋ : ℚ) :=
      Int.cast_le.mpr hk0
    push_cast at hq ⊢
    linarith
  · rw [div_le_iff₀ (by norm_num)]
    have hq : (⌊(r * (2000 - 1000) + 1000) * 10 ^ 2 + 1 / 2⌋ : ℚ)
        ≤ ((200000 : Int) : ℚ) :=
      Int.cast_le.mpr hk1
    push_cast at hq ⊢
    linarith
  · ring

/-- Witness for C6 at the concrete draw `0`. -/
theorem c6_witness :
    0 ≤ (0 : ℚ) ∧ (0 : ℚ) < 1 ∧
    (1000 ≤ generateAmount 1000 2000 2 0 ∧
     generateAmount 1000 2000 2 0 ≤ 2000 ∧
     ∃ m : Int, generateAmount 1000 2000 2 0 * 100 = (m : ℚ)) :=
  ⟨le_refl 0, zero_lt_one,
   c6_amount_bounds_and_two_decimals 0 (le_refl 0) zero_lt_one⟩

/-- Counterexample to C6's parenthetical "equivalently, for every seed":
at seed `-100` the first draw is `-180963 / 233280 < 0`, and
`generateAmount(1000, 2000, 2)` returns `224.27 < 1000`. -/
theorem c6_cex_negative_seed :
    ¬ (1000 ≤ generateAmount 1000 2000 2 (rngEmit (-100) 0)) := by
  have hs : rngState (-100) 1 = -180963 := by decide
  have hr : rngEmit (-100) 0 = (-180963 : ℚ) / 233280 := by
    rw [rngEmit, hs, emit]
    norm_num
  have hfl : ⌊((-180963 : ℚ) / 233280 * (2000 - 1000) + 1000) * 10 ^ 2 + 1 / 2⌋
      = 22427 := by
    rw [Int.floor_eq_iff]
    norm_num
  rw [hr, generateAmount, jsToFixed, if_neg (by norm_num), hfl]
  norm_num

theorem ratTrunc_intCast (n : Int) : ratTrunc (n : ℚ) = n := by
  rw [ratTrunc, Rat.num_intCast, Rat.den_intCast]
  simp

/- ### Claim C7 -/

/-- C7: with `daysAgo = 0` and `daysFuture = 0` the window collapses to
the single instant `now`: for every current time and every value of the
random draw, `formatDate (generateDate 0 0)` is the current date formatted
as `YYYY-MM-DD`, i.e. `formatDate now`. -/
theorem c7_degenerate_date_window (now : Int) (r : ℚ) :
    formatDate (generateDate 0 0 now r) = formatDate now := by
  have h : generateDate 0 0 now r = now := by
    rw [generateDate]
    norm_num
    exact ratTrunc_intCast now
  rw [h]

/- ### Claim C10 -/

/-- C10: `generateTaxPeriod` treats month `0` as absent — with month `0`
it behaves exactly like the no-month call, and its result never ends in
`"00"` (the random month is 1–12, zero-padded); while any given month
`m ≥ 1`, including out-of-range values such as `13`, is used verbatim:
the result is the year's digits followed by `m` zero-padded to 2 digits,
with no validation of `m`. -/
theorem c10_tax_period_month_zero_absent (cy ya m : Int) (r : ℚ)
    (h0 : 0 ≤ r) (h1 : r < 1) (hm : 1 ≤ m) :
    generateTaxPeriod cy ya (some 0) r = generateTaxPeriod cy ya none r ∧
    (generateTaxPeriod cy ya (some 0) r).drop
      ((generateTaxPeriod cy ya (some 0) r).length - 2) ≠ ['0', '0'] ∧
    generateTaxPeriod cy ya (some m) r
      = intToDecimal (cy - ya) ++ padTwo (intToDecimal m) := by
  have hk0 : 0 ≤ ⌊r * 12⌋ := Int.floor_nonneg.mpr (by positivity)
  have hk1 : ⌊r * 12⌋ < 12 := Int.floor_lt.mpr (by push_cast; nlinarith)
  have hunfold : generateTaxPeriod cy ya (some 0) r
      = intToDecimal (cy - ya) ++ padTwo (intToDecimal (⌊r * 12⌋ + 1)) := by
    simp [generateTaxPeriod]
  have hM : (padTwo (intToDecimal (⌊r * 12⌋ + 1))).length = 2 ∧
      padTwo (intToDecimal (⌊r * 12⌋ + 1)) ≠ ['0', '0'] := by
    set k := ⌊r * 12⌋ with hk
    clear_value k
    interval_cases k <;> exact ⟨by decide, by decide⟩
  refine ⟨by simp [generateTaxPeriod], ?_, ?_⟩
  · rw [hunfold, List.length_append, hM.1, Nat.add_sub_cancel,
      List.drop_left]
    exact hM.2
  · have hm0 : m ≠ 0 := by omega
    simp [generateTaxPeriod, hm0]

/-- Witness for C10 at the current year `2025`, `yearsAgo = 1`, the
out-of-range month `13` and the concrete draw `1/2`. -/
theorem c10_witness :
    0 ≤ (1 / 2 : ℚ) ∧ (1 / 2 : ℚ) < 1 ∧ 1 ≤ (13 : Int) ∧
    (generateTaxPeriod 2025 1 (some 0) (1 / 2)
      = generateTaxPeriod 2025 1 none (1 / 2) ∧
     (generateTaxPeriod 2025 1 (some 0) (1 / 2)).drop
       ((generateTaxPeriod 2025 1 (some 0) (1 / 2)).length - 2) ≠ ['0', '0'] ∧
     generateTaxPeriod 2025 1 (some 13) (1 / 2)
      = intToDecimal (2025 - 1) ++ padTwo (intToDecimal 13)) :=
  ⟨le_of_lt one_half_pos, one_half_lt_one, by decide,
   c10_tax_period_month_zero_absent 2025 1 13 (1 / 2)
     (le_of_lt one_half_pos) one_half_lt_one (by decide)⟩
